import Mathlib

/-!
Verification development for the secure-sphere biometric authentication and
field-encryption flows.

The definitions below are a shallow embedding of the TypeScript source:

* `Credential`, `lookupByCredentialId`, `postCredential`, `putCounter` embed the
  Firestore-backed REST handlers in `src/app/api/biometric-credentials/route.ts`
  (the collection is modelled as a `List Credential` in document order; a
  Firestore equality query is a `filter`, `querySnapshot.docs[0]` is the head
  of the filtered list).
* `authenticateUser` embeds `BiometricAuthClient.authenticateUser`
  (`src/utils/biometricAuthClient.ts`): the platform assertion ceremony is
  modelled by its observable outcome (the returned credential id, or `none` for
  a ceremony failure), and the HTTP round-trips to the credential endpoints are
  inlined as operations on the store state.  Network transport is modelled as
  functioning; the store contents are the function's argument.
* `Cipher`, `encrypt`, `decrypt`, `decryptObject` embed
  `src/utils/encryption.ts`.  The CryptoJS AES passphrase cipher under the
  process-wide static key is an external library and is modelled as an abstract
  pair of total string functions; its correct-key contract is the `RoundTrip`
  law.  The `decrypt` wrapper logic (the emptiness check and the rethrown
  message) is taken from the source.
* `securityLogsGet` embeds the `GET` handler of
  `src/app/api/security-logs/route.ts`.  The JavaScript in-memory
  `sort((a, b) => b.timestamp - a.timestamp)` (a stable sort, descending by
  timestamp) is modelled by a stable sort with the same ordering.
* `setupFaceAuth` and `signInWithFace` embed the corresponding functions of the
  `AuthProvider` context (`src/contexts/AuthContext.tsx`): external effects
  (profile reads/writes, the biometric client call, the `/api/biometric-login`
  fetch) are modelled by their observable outcomes passed in as arguments, and
  the audit trail is the list of events passed to `logSecurityEvent` (whose own
  write failures are swallowed by the source and do not alter control flow).
-/

namespace SecureSphere

/-- A stored biometric credential document, after the `BiometricCredential`
interface of `src/app/api/biometric-credentials/route.ts` (`id` is the
Firestore document id; timestamps are modelled as naturals). -/
structure Credential where
  id : String
  userId : String
  publicKey : String
  credentialId : String
  counter : Nat
  createdAt : Nat
  lastUsed : Option Nat
  deviceInfo : Option String
deriving DecidableEq, Repr

/-- The `BiometricAuthResult` shape returned by
`BiometricAuthClient.authenticateUser`. -/
structure AuthResult where
  success : Bool
  credentialId : Option String
  userId : Option String
  error : Option String
deriving DecidableEq, Repr

/-- `GET /biometric-credentials?credentialId=...`: the Firestore query
`where("credentialId", "==", cid)` over the collection, in document order. -/
def lookupByCredentialId (store : List Credential) (cid : String) : List Credential :=
  store.filter (fun c => c.credentialId == cid)

/-- `PUT /biometric-credentials` (route.ts lines 141-184): find the documents
matching `credentialId` and update `querySnapshot.docs[0]` with the supplied
`counter` and `lastUsed = new Date()`; when no document matches the handler
answers 404 and the store is unchanged. -/
def putCounter (store : List Credential) (cid : String) (counter now : Nat) :
    List Credential :=
  match store with
  | [] => []
  | c :: rest =>
    if c.credentialId == cid then
      { c with counter := counter, lastUsed := some now } :: rest
    else
      c :: putCounter rest cid counter now

/-- `BiometricAuthClient.authenticateUser` (biometricAuthClient.ts lines
119-178).  `ceremony` is the credential id returned by the platform assertion
ceremony (`none` when the ceremony produced no credential).  On a match the
client issues `PUT {credentialId, counter}` with the hard-coded
`const counter = 0; // Simplified for now` before returning success.  Returns
the result together with the store state after the PUT. -/
def authenticateUser (ceremony : Option String) (store : List Credential) (now : Nat) :
    AuthResult × List Credential :=
  match ceremony with
  | none =>
    ({ success := false, credentialId := none, userId := none,
       error := some "Authentication failed - no credential provided" }, store)
  | some cid =>
    match lookupByCredentialId store cid with
    | [] =>
      ({ success := false, credentialId := none, userId := none,
         error := some "No user found for this biometric credential" }, store)
    | userCredential :: _ =>
      ({ success := true, credentialId := some cid,
         userId := some userCredential.userId, error := none },
       putCounter store cid 0 now)

/-- Request body of `POST /biometric-credentials`. -/
structure PostBody where
  userId : String
  publicKey : String
  credentialId : String
  counter : Nat
  deviceInfo : Option String
deriving DecidableEq, Repr

/-- `POST /biometric-credentials` (route.ts lines 82-138): 400 when a required
field is missing (the JavaScript `!userId` test is false exactly on the empty
string), 409 when a document with the same `credentialId` already exists
(`existingSnapshot` not empty), otherwise `addDoc` appends the new document and
the handler answers 201.  Returns the HTTP status and the new store. -/
def postCredential (store : List Credential) (b : PostBody) (newId : String) (now : Nat) :
    Nat × List Credential :=
  if b.userId == "" || b.publicKey == "" || b.credentialId == "" then
    (400, store)
  else if (lookupByCredentialId store b.credentialId).isEmpty then
    (201, store ++ [{ id := newId, userId := b.userId, publicKey := b.publicKey,
                      credentialId := b.credentialId, counter := b.counter,
                      createdAt := now, lastUsed := none, deviceInfo := b.deviceInfo }])
  else
    (409, store)

/-- Two credential documents that agree on every field except possibly
`publicKey`. -/
def eqExceptPublicKey (a b : Credential) : Prop :=
  a.id = b.id ∧ a.userId = b.userId ∧ a.credentialId = b.credentialId ∧
  a.counter = b.counter ∧ a.createdAt = b.createdAt ∧ a.lastUsed = b.lastUsed ∧
  a.deviceInfo = b.deviceInfo

/-! ### Field cipher (`src/utils/encryption.ts`) -/

/-- The CryptoJS AES passphrase cipher under the process-wide static
`ENCRYPTION_KEY`, modelled as an abstract pair of total string functions
(`CryptoJS.AES.encrypt(data, KEY).toString()` and
`CryptoJS.AES.decrypt(data, KEY).toString(CryptoJS.enc.Utf8)`). -/
structure Cipher where
  enc : String → String
  dec : String → String

/-- The library's correct-key contract: raw decryption inverts raw
encryption. -/
def RoundTrip (c : Cipher) : Prop :=
  ∀ s : String, c.dec (c.enc s) = s

/-- `encryptionUtil.encrypt` (encryption.ts lines 8-16): a direct call into the
cipher library. -/
def encrypt (c : Cipher) (data : String) : String :=
  c.enc data

/-- `encryptionUtil.decrypt` (encryption.ts lines 18-34): raw-decrypt, then
`if (!decryptedString) throw` — the JavaScript falsiness test rejects exactly
the empty string — and the surrounding `catch` rethrows every failure as
`"Failed to decrypt data"`.  A throw is `Except.error` with the observable
message. -/
def decrypt (c : Cipher) (encryptedData : String) : Except String String :=
  let decryptedString : String := c.dec encryptedData
  if decryptedString = "" then
    Except.error "Failed to decrypt data"
  else
    Except.ok decryptedString

/-- `decryptObject` (encryption.ts lines 56-73): for each entry with a truthy
(non-empty) value, decrypt it, substituting the sentinel
`"[DECRYPTION_FAILED]"` when `decrypt` throws; entries with falsy values are
skipped.  Objects are modelled as association lists in key-enumeration
order. -/
def decryptObject (c : Cipher) (encryptedObj : List (String × String)) :
    List (String × String) :=
  match encryptedObj with
  | [] => []
  | (k, v) :: rest =>
    if v = "" then
      decryptObject c rest
    else
      match decrypt c v with
      | Except.ok p => (k, p) :: decryptObject c rest
      | Except.error _ => (k, "[DECRYPTION_FAILED]") :: decryptObject c rest

/-- A concrete cipher satisfying the `RoundTrip` contract, used to instantiate
theorems: raw encryption and decryption are both the identity. -/
def idCipher : Cipher :=
  { enc := fun s => s, dec := fun s => s }

/-- A concrete cipher whose raw decryption yields the empty string on the
foreign input `"BAD"` — as CryptoJS yields no UTF-8 plaintext on ciphertext
made with another key — and passes every other string through. -/
def badCipher : Cipher :=
  { enc := fun s => s, dec := fun s => if s = "BAD" then "" else s }

/-! ### Security logs (`src/app/api/security-logs/route.ts`) -/

/-- A security log document, after the `SecurityLog` shape used by the route
(timestamps as naturals: `Date.getTime()`). -/
structure SecurityLog where
  id : String
  userId : String
  action : String
  method : String
  success : Bool
  timestamp : Nat
deriving DecidableEq, Repr

/-- Newest-first ordering on log entries: the JavaScript comparator
`(a, b) => b.timestamp - a.timestamp`. -/
def newestFirst (a b : SecurityLog) : Prop :=
  b.timestamp ≤ a.timestamp

instance : DecidableRel newestFirst := fun a b =>
  inferInstanceAs (Decidable (b.timestamp ≤ a.timestamp))

instance : IsTotal SecurityLog newestFirst :=
  ⟨fun a b => Nat.le_total b.timestamp a.timestamp⟩

instance : IsTrans SecurityLog newestFirst :=
  ⟨fun _ _ _ h h' => Nat.le_trans h' h⟩

/-- `GET /security-logs` (route.ts lines 15-73): filter the collection to the
requesting user (and to `action` when that query parameter is present), sort in
memory newest-first with a stable sort, then
`limitCount > 0 && limitCount <= 100 ? logs.slice(0, limitCount) : logs`.
`limitParam` is the value `parseInt` produced from the `limit` query parameter
(`none` when the parameter is absent, in which case the source parses the
default string `"50"`).  `logMatches` is the Firestore `where` filter: the
`userId` equality clause plus the optional `action` equality clause. -/
def logMatches (userId : String) (actionFilter : Option String)
    (l : SecurityLog) : Bool :=
  l.userId == userId && (match actionFilter with
    | none => true
    | some a => l.action == a)

def securityLogsGet (store : List SecurityLog) (userId : String)
    (actionFilter : Option String) (limitParam : Option Int) : List SecurityLog :=
  let logs := store.filter (logMatches userId actionFilter)
  let sorted := List.insertionSort newestFirst logs
  let limitCount : Int := limitParam.getD 50
  if 0 < limitCount ∧ limitCount ≤ 100 then
    sorted.take limitCount.toNat
  else
    sorted

/-! ### AuthProvider flows (`src/contexts/AuthContext.tsx`) -/

/-- One call to `logSecurityEvent` (AuthContext lines 157-184): the audit event
handed to the security-log collection.  The handler's own write failures are
caught locally and change nothing observable, so the audit trail of a flow is
the list of events it emits. -/
structure AuditEvent where
  userId : String
  action : String
  method : String
  success : Bool
  details : Option String
deriving DecidableEq, Repr

/-- Observable outcomes of the external steps `setupFaceAuth` awaits: whether
`getUserProfile` found a profile, whether `createUserProfile`'s `setDoc`
succeeded (`Except.error` carries the thrown message), the result of
`biometricAuthClient.registerBiometric`, and whether the `updateDoc` writing
`securitySettings.faceRecognitionEnabled` succeeded. -/
structure SetupEnv where
  profileExists : Bool
  createProfile : Except String Unit
  registerResult : AuthResult
  updateDoc : Except String Unit

/-- `setupFaceAuth` (AuthContext lines 254-315).  With no authenticated user it
throws `"User not authenticated"` before the `try` block, so before any audit
logging.  Inside the `try`, any thrown step lands in the `catch`, which logs
one failure event and returns `false`; the success path logs one success event
and returns `true`.  Returns the function's outcome (`Except.error` = thrown)
and the audit events emitted. -/
def setupFaceAuth (user : Option String) (env : SetupEnv) :
    Except String Bool × List AuditEvent :=
  match user with
  | none => (Except.error "User not authenticated", [])
  | some uid =>
    let failLog (msg : String) : Except String Bool × List AuditEvent :=
      (Except.ok false,
       [{ userId := uid, action := "face_auth", method := "face", success := false,
          details := some msg }])
    match (if env.profileExists then Except.ok () else env.createProfile) with
    | Except.error e => failLog e
    | Except.ok _ =>
      if env.registerResult.success then
        match env.updateDoc with
        | Except.error e => failLog e
        | Except.ok _ =>
          (Except.ok true,
           [{ userId := uid, action := "face_auth", method := "face", success := true,
              details := some "Biometric authentication setup completed" }])
      else
        failLog ((env.registerResult.error).getD "Failed to register biometric credential")

/-- Result of one `signInWithFace` run: the returned value (`Except.error` =
thrown), the session established by `setUser`/`setUserProfile` (the signed-in
user id, `none` when they were never called), and the audit events emitted. -/
structure SignInOutcome where
  result : Except String Bool
  session : Option String
  logs : List AuditEvent
deriving Repr

/-- `signInWithFace` (AuthContext lines 317-426).  `currentUser` is the
provider's user state at call time (the `user?.uid || "anonymous"` the audit
logger reads); `available` is what `isBiometricAvailable` reported; the
assertion ceremony and the credential store behave as in `authenticateUser`;
`loginFetch` is the outcome of the `POST /api/biometric-login` profile fetch.
Every path of the `try` that throws reaches the `catch`, which logs one failure
event and rethrows; the success path sets the session and logs one success
event. -/
def signInWithFace (currentUser : Option String) (available : Bool)
    (ceremony : Option String) (store : List Credential) (now : Nat)
    (loginFetch : Except String Unit) : SignInOutcome :=
  let logU := currentUser.getD "anonymous"
  let failLog (msg : String) : SignInOutcome :=
    { result := Except.error msg, session := none,
      logs := [{ userId := logU, action := "login", method := "face", success := false,
                 details := some msg }] }
  if available then
    match (authenticateUser ceremony store now).1 with
    | { success := false, credentialId := _, userId := _, error := e } =>
      failLog (e.getD "Biometric authentication failed")
    | { success := true, credentialId := _, userId := none, error := _ } =>
      failLog "No user ID returned from biometric authentication"
    | { success := true, credentialId := _, userId := some uid, error := _ } =>
      match loginFetch with
      | Except.error e => failLog e
      | Except.ok _ =>
        { result := Except.ok true, session := some uid,
          logs := [{ userId := logU, action := "login", method := "face", success := true,
                     details := some "Biometric authentication successful" }] }
  else
    failLog "Biometric authentication is not available on this device"

/-- Whether a flow's returned value counts as a successful outcome: it returned
`true` (a thrown error or a returned `false` are failures). -/
def succeeded (r : Except String Bool) : Bool :=
  match r with
  | Except.ok b => b
  | Except.error _ => false

/-- A sample stored credential used to instantiate theorems on concrete
inputs. -/
def sampleCred : Credential :=
  { id := "d1", userId := "u1", publicKey := "pkA", credentialId := "c1",
    counter := 5, createdAt := 0, lastUsed := none, deviceInfo := none }

/-- `sampleCred` with a different stored public key and nothing else
changed. -/
def sampleCredAltKey : Credential :=
  { sampleCred with publicKey := "pkB" }

/-- A sample `SetupEnv` in which every external step succeeds. -/
def sampleSetupEnv : SetupEnv :=
  { profileExists := true, createProfile := Except.ok (),
    registerResult :=
      { success := true, credentialId := some "c1", userId := some "u1", error := none },
    updateDoc := Except.ok () }

/-! ## Theorems -/

/-- C3 (counterexample): the round-trip law fails at the empty string.  For
any cipher satisfying the library's raw round-trip contract — the identity
cipher is one — the source's `decrypt` applied to `encrypt ""` throws
`"Failed to decrypt data"` instead of returning `""`, because the
`if (!decryptedString)` falsiness check fires on the empty plaintext. -/
theorem decrypt_encrypt_empty_throws :
    RoundTrip idCipher ∧
    decrypt idCipher (encrypt idCipher "") = Except.error "Failed to decrypt data" ∧
    decrypt idCipher (encrypt idCipher "") ≠ Except.ok "" :=
  ⟨fun _ => rfl, rfl, by simp [decrypt, encrypt, idCipher]⟩

/-- C3 (amended): for every cipher satisfying the raw round-trip contract and
every non-empty string `s`, `decrypt (encrypt s) = ok s`. -/
theorem decrypt_encrypt_roundtrip (c : Cipher) (hc : RoundTrip c)
    (s : String) (hs : s ≠ "") :
    decrypt c (encrypt c s) = Except.ok s := by
  unfold decrypt encrypt
  rw [hc s]
  simp [hs]

/-- C3 (witness): the amended round-trip law at the identity cipher and the
concrete non-empty string `"4111111111111111"`. -/
theorem decrypt_encrypt_roundtrip_witness :
    RoundTrip idCipher ∧ "4111111111111111" ≠ "" ∧
    decrypt idCipher (encrypt idCipher "4111111111111111") =
      Except.ok "4111111111111111" :=
  ⟨fun _ => rfl, by decide,
   decrypt_encrypt_roundtrip idCipher (fun _ => rfl) "4111111111111111" (by decide)⟩

/-- C9: `decrypt` rejects empty plaintext.  For every cipher satisfying the
raw round-trip contract, decrypting `encrypt ""` throws
`"Failed to decrypt data"`, and for no input at all does `decrypt` return the
empty string. -/
theorem decrypt_rejects_empty (c : Cipher) (hc : RoundTrip c) :
    decrypt c (encrypt c "") = Except.error "Failed to decrypt data" ∧
    ∀ x : String, decrypt c x ≠ Except.ok "" := by
  constructor
  · unfold decrypt encrypt
    rw [hc ""]
    simp
  · intro x h
    unfold decrypt at h
    by_cases hd : c.dec x = ""
    · simp [hd] at h
    · simp only [if_neg hd] at h
      exact hd (Except.ok.injEq _ _ ▸ h)

/-- C9 (witness): the rejection of empty plaintext at the identity cipher. -/
theorem decrypt_rejects_empty_witness :
    RoundTrip idCipher ∧
    decrypt idCipher (encrypt idCipher "") = Except.error "Failed to decrypt data" ∧
    decrypt idCipher "x" ≠ Except.ok "" :=
  ⟨fun _ => rfl, (decrypt_rejects_empty idCipher (fun _ => rfl)).1,
   (decrypt_rejects_empty idCipher (fun _ => rfl)).2 "x"⟩

/-- C7: the field-batch helper `decryptObject` is a total function (a throw on
one field is caught per-field), and every entry `(k, v)` with a non-empty
value contributes exactly its decryption when `decrypt` succeeds and the
sentinel `"[DECRYPTION_FAILED]"` when `decrypt` throws, independently of the
other fields. -/
theorem decryptObject_per_field (c : Cipher) (obj : List (String × String))
    (k v : String) (hmem : (k, v) ∈ obj) (hv : v ≠ "") :
    (k, match decrypt c v with
        | Except.ok p => p
        | Except.error _ => "[DECRYPTION_FAILED]") ∈ decryptObject c obj := by
  induction obj with
  | nil => cases hmem
  | cons hd tl ih =>
    obtain ⟨k', v'⟩ := hd
    rcases List.mem_cons.mp hmem with heq | htl
    · obtain ⟨hk, hv'⟩ := Prod.mk.injEq .. ▸ heq
      subst hk
      subst hv'
      unfold decryptObject
      simp only [if_neg hv]
      cases hdec : decrypt c v with
      | ok p => simp [hdec]
      | error e => simp [hdec]
    · have hmem' := ih htl
      unfold decryptObject
      by_cases hv' : v' = ""
      · simpa [hv'] using hmem'
      · simp only [if_neg hv']
        cases hdec : decrypt c v' with
        | ok p => exact List.mem_cons_of_mem _ hmem'
        | error e => exact List.mem_cons_of_mem _ hmem'

/-- C7 (witness): in a record with one decryptable field and one undecryptable
field, the failing field maps to the sentinel and the healthy field maps to
its plaintext. -/
theorem decryptObject_per_field_witness :
    ("f2", "BAD") ∈ [("f1", "v1"), ("f2", "BAD")] ∧ "BAD" ≠ "" ∧
    ("f2", "[DECRYPTION_FAILED]") ∈
      decryptObject badCipher [("f1", "v1"), ("f2", "BAD")] ∧
    ("f1", "v1") ∈ decryptObject badCipher [("f1", "v1"), ("f2", "BAD")] := by
  refine ⟨by decide, by decide, ?_, ?_⟩
  · have h := decryptObject_per_field badCipher [("f1", "v1"), ("f2", "BAD")]
      "f2" "BAD" (by decide) (by decide)
    simpa using h
  · have h := decryptObject_per_field badCipher [("f1", "v1"), ("f2", "BAD")]
      "f1" "v1" (by decide) (by decide)
    simpa using h

/-- A record with a given `credentialId` belongs to the lookup result for that
id. -/
theorem mem_lookupByCredentialId {store : List Credential} {r : Credential}
    {cid : String} (hmem : r ∈ store) (hcid : r.credentialId = cid) :
    r ∈ lookupByCredentialId store cid := by
  unfold lookupByCredentialId
  exact List.mem_filter.mpr ⟨hmem, by simp [hcid]⟩

/-- Conversely, members of the lookup result are store members carrying the
queried `credentialId`. -/
theorem of_mem_lookupByCredentialId {store : List Credential} {r : Credential}
    {cid : String} (h : r ∈ lookupByCredentialId store cid) :
    r ∈ store ∧ r.credentialId = cid := by
  unfold lookupByCredentialId at h
  have h' := List.mem_filter.mp h
  exact ⟨h'.1, by simpa using h'.2⟩

/-- C4: posting a credential whose `credentialId` is already stored answers
409 and returns the store unchanged — the existing record is not overwritten
and nothing is appended. -/
theorem postCredential_duplicate (store : List Credential) (r : Credential)
    (b : PostBody) (newId : String) (now : Nat)
    (hmem : r ∈ store) (hdup : r.credentialId = b.credentialId)
    (hu : b.userId ≠ "") (hp : b.publicKey ≠ "") (hc : b.credentialId ≠ "") :
    postCredential store b newId now = (409, store) := by
  have hr : r ∈ lookupByCredentialId store b.credentialId :=
    mem_lookupByCredentialId hmem hdup
  have hne : (lookupByCredentialId store b.credentialId).isEmpty = false := by
    cases hl : lookupByCredentialId store b.credentialId with
    | nil => rw [hl] at hr; cases hr
    | cons a t => rfl
  unfold postCredential
  simp [hu, hp, hc, hne]

/-- C4 (witness): posting a duplicate of the stored `sampleCred` record. -/
theorem postCredential_duplicate_witness :
    sampleCred ∈ [sampleCred] ∧
    sampleCred.credentialId = "c1" ∧ "u2" ≠ "" ∧ "pkC" ≠ "" ∧ "c1" ≠ "" ∧
    postCredential [sampleCred]
      { userId := "u2", publicKey := "pkC", credentialId := "c1",
        counter := 0, deviceInfo := none } "d2" 9 = (409, [sampleCred]) :=
  ⟨by decide, by decide, by decide, by decide, by decide,
   postCredential_duplicate [sampleCred] sampleCred
     { userId := "u2", publicKey := "pkC", credentialId := "c1",
       counter := 0, deviceInfo := none } "d2" 9
     (by decide) (by decide) (by decide) (by decide) (by decide)⟩

/-- C2: when the store holds a record `{credentialId := C, userId := U}` and
`C` is globally unique in the store, a verification whose assertion ceremony
returns `C` resolves to exactly `U`:
`authenticateUser` returns `{success := true, userId := U, credentialId := C}`. -/
theorem authenticateUser_resolves_unique (store : List Credential)
    (r : Credential) (C U : String) (now : Nat)
    (hmem : r ∈ store) (hcid : r.credentialId = C) (huid : r.userId = U)
    (huniq : ∀ r' ∈ store, r'.credentialId = C → r' = r) :
    (authenticateUser (some C) store now).1 =
      { success := true, credentialId := some C, userId := some U, error := none } := by
  have hr : r ∈ lookupByCredentialId store C := mem_lookupByCredentialId hmem hcid
  cases hf : lookupByCredentialId store C with
  | nil => rw [hf] at hr; cases hr
  | cons h t =>
    have hh : h ∈ lookupByCredentialId store C := by
      rw [hf]; exact List.mem_cons_self h t
    obtain ⟨hhs, hhc⟩ := of_mem_lookupByCredentialId hh
    have hhr : h = r := huniq h hhs hhc
    simp only [authenticateUser, hf, hhr, huid]

/-- C2 (witness): resolution of the concrete stored record `sampleCred`. -/
theorem authenticateUser_resolves_unique_witness :
    sampleCred ∈ [sampleCred] ∧ sampleCred.credentialId = "c1" ∧
    sampleCred.userId = "u1" ∧
    (∀ r' ∈ [sampleCred], r'.credentialId = "c1" → r' = sampleCred) ∧
    (authenticateUser (some "c1") [sampleCred] 7).1 =
      { success := true, credentialId := some "c1", userId := some "u1",
        error := none } :=
  ⟨by decide, by decide, by decide, by decide,
   authenticateUser_resolves_unique [sampleCred] sampleCred "c1" "u1" 7
     (by decide) (by decide) (by decide) (by decide)⟩

/-- C6: evaluation of the code at the failing input.  `sampleCred` holds
signature counter 5; a successful verification against it succeeds, but
afterwards the stored counter is 0 — the client hard-codes
`const counter = 0` in the PUT — so the counter decreased from 5. -/
theorem counter_decreases_on_verification :
    (authenticateUser (some "c1") [sampleCred] 7).1.success = true ∧
    (authenticateUser (some "c1") [sampleCred] 7).2 =
      [{ sampleCred with counter := 0, lastUsed := some 7 }] ∧
    sampleCred.counter = 5 ∧ ¬ (5 : Nat) ≤ 0 := by
  refine ⟨rfl, ?_, rfl, by decide⟩
  decide

/-- Pointwise `eqExceptPublicKey` is preserved by the credential-id lookup:
related stores filter to related result lists, because the filter only reads
`credentialId`, on which related records agree. -/
theorem forall₂_lookupByCredentialId {s₁ s₂ : List Credential}
    (h : List.Forall₂ eqExceptPublicKey s₁ s₂) (cid : String) :
    List.Forall₂ eqExceptPublicKey
      (lookupByCredentialId s₁ cid) (lookupByCredentialId s₂ cid) := by
  induction h with
  | nil => exact List.Forall₂.nil
  | cons hab htl ih =>
    rename_i a b l₁ l₂
    unfold lookupByCredentialId at ih ⊢
    rw [List.filter_cons, List.filter_cons, hab.2.2.1]
    by_cases hb : (b.credentialId == cid) = true
    · simp only [hb, if_true]
      exact List.Forall₂.cons hab ih
    · simp only [Bool.not_eq_true] at hb
      simp only [hb, Bool.false_eq_true, if_false]
      exact ih

/-- C1: the verification service never reads the stored public key.  For any
two runs over stores that agree record-for-record on every field except
`publicKey` — in particular two runs identical except for the matched
record's `publicKey` — and the same assertion-ceremony outcome,
`authenticateUser` produces identical results, so the authentication outcome
is independent of the stored public key. -/
theorem authenticateUser_ignores_publicKey (s₁ s₂ : List Credential)
    (ceremony : Option String) (now : Nat)
    (h : List.Forall₂ eqExceptPublicKey s₁ s₂) :
    (authenticateUser ceremony s₁ now).1 = (authenticateUser ceremony s₂ now).1 := by
  cases ceremony with
  | none => rfl
  | some cid =>
    have hf := forall₂_lookupByCredentialId h cid
    cases h1 : lookupByCredentialId s₁ cid with
    | nil =>
      have h2 : lookupByCredentialId s₂ cid = [] := by
        rw [h1] at hf
        exact List.forall₂_nil_left_iff.mp hf
      simp only [authenticateUser, h1, h2]
    | cons a t =>
      rw [h1] at hf
      obtain ⟨b, u, hab, _, h2⟩ := List.forall₂_cons_left_iff.mp hf
      simp only [authenticateUser, h1, h2, hab.2.1]

/-- C1 (witness): two concrete one-record stores differing only in the stored
public key of the matched record produce the same verification result. -/
theorem authenticateUser_ignores_publicKey_witness :
    List.Forall₂ eqExceptPublicKey [sampleCred] [sampleCredAltKey] ∧
    (authenticateUser (some "c1") [sampleCred] 7).1 =
      (authenticateUser (some "c1") [sampleCredAltKey] 7).1 :=
  have hrel : List.Forall₂ eqExceptPublicKey [sampleCred] [sampleCredAltKey] :=
    List.Forall₂.cons (by exact ⟨rfl, rfl, rfl, rfl, rfl, rfl, rfl⟩) List.Forall₂.nil
  ⟨hrel, authenticateUser_ignores_publicKey [sampleCred] [sampleCredAltKey]
    (some "c1") 7 hrel⟩

/-- C5 (counterexample): at the concrete input of an empty credential store,
a verification whose ceremony returns credential id `"c9"` fails with the
error string `"No user found for this biometric credential"` — the message
the client throws on an empty lookup — not with the string
`"UnknownCredential"`. -/
theorem unknown_credential_error_string :
    (authenticateUser (some "c9") [] 0).1 =
      { success := false, credentialId := none, userId := none,
        error := some "No user found for this biometric credential" } ∧
    (authenticateUser (some "c9") [] 0).1.error ≠ some "UnknownCredential" := by
  refine ⟨rfl, ?_⟩
  decide

/-- C5 (amended): when the ceremony returns a credential id with zero matching
records, the verification result is a failure carrying the error
`"No user found for this biometric credential"`, and `signInWithFace` throws
without establishing a session (neither the current user nor the user profile
is set). -/
theorem signInWithFace_unknown_credential (currentUser : Option String)
    (store : List Credential) (cid : String) (now : Nat)
    (loginFetch : Except String Unit)
    (hzero : lookupByCredentialId store cid = []) :
    (authenticateUser (some cid) store now).1 =
      { success := false, credentialId := none, userId := none,
        error := some "No user found for this biometric credential" } ∧
    (signInWithFace currentUser true (some cid) store now loginFetch).result =
      Except.error "No user found for this biometric credential" ∧
    (signInWithFace currentUser true (some cid) store now loginFetch).session =
      none := by
  have hres : (authenticateUser (some cid) store now).1 =
      { success := false, credentialId := none, userId := none,
        error := some "No user found for this biometric credential" } := by
    simp only [authenticateUser, hzero]
  refine ⟨hres, ?_, ?_⟩ <;> simp [signInWithFace, hres]

/-- C5 (witness): the amended statement at the concrete empty store. -/
theorem signInWithFace_unknown_credential_witness :
    lookupByCredentialId [] "c9" = [] ∧
    (signInWithFace none true (some "c9") [] 0 (Except.ok ())).result =
      Except.error "No user found for this biometric credential" ∧
    (signInWithFace none true (some "c9") [] 0 (Except.ok ())).session = none :=
  have h := signInWithFace_unknown_credential none [] "c9" 0 (Except.ok ()) rfl
  ⟨rfl, h.2.1, h.2.2⟩

/-- C8 (counterexample): an enrollment attempt with no authenticated user —
even in an environment where every external step would succeed — throws
`"User not authenticated"` before the `try` block and emits zero audit
events, not exactly one. -/
theorem setupFaceAuth_no_user_no_audit :
    setupFaceAuth none sampleSetupEnv = (Except.error "User not authenticated", []) ∧
    (setupFaceAuth none sampleSetupEnv).2.length ≠ 1 := by
  refine ⟨rfl, ?_⟩
  decide

/-- C8 (amended): every enrollment attempt made with an authenticated user,
and every verification attempt, emits exactly one audit event, and its
`success` flag matches the attempt's outcome; an enrollment attempt without an
authenticated user throws before any logging and emits no event. -/
theorem audit_one_event_per_attempt :
    (∀ (uid : String) (env : SetupEnv),
        (setupFaceAuth (some uid) env).2.length = 1 ∧
        ∀ l ∈ (setupFaceAuth (some uid) env).2,
          l.success = succeeded (setupFaceAuth (some uid) env).1) ∧
    (∀ (currentUser : Option String) (available : Bool) (ceremony : Option String)
        (store : List Credential) (now : Nat) (loginFetch : Except String Unit),
        (signInWithFace currentUser available ceremony store now loginFetch).logs.length = 1 ∧
        ∀ l ∈ (signInWithFace currentUser available ceremony store now loginFetch).logs,
          l.success =
            succeeded (signInWithFace currentUser available ceremony store now loginFetch).result) := by
  constructor
  · intro uid env
    obtain ⟨pe, cp, rr, ud⟩ := env
    obtain ⟨s, c, u, e⟩ := rr
    cases pe <;> cases cp <;> cases s <;> cases ud <;>
      simp [setupFaceAuth, succeeded]
  · intro cu avail cer store now lf
    cases avail
    · simp [signInWithFace, succeeded]
    · rcases har : (authenticateUser cer store now).1 with ⟨s, c, u, e⟩
      cases s
      · simp [signInWithFace, har, succeeded]
      · cases u
        · simp [signInWithFace, har, succeeded]
        · cases lf <;> simp [signInWithFace, har, succeeded]

/-- C10: `GET /security-logs` returns only the requesting user's entries,
sorted newest-first, and truncates to the limit (default 50) exactly when the
parsed limit lies between 1 and 100 inclusive; a limit of 0, a negative limit,
or a limit above 100 yields the entire sorted result set. -/
theorem securityLogsGet_spec (store : List SecurityLog) (u : String)
    (af : Option String) (lim : Option Int) :
    (∀ l ∈ securityLogsGet store u af lim, l.userId = u) ∧
    List.Sorted newestFirst (securityLogsGet store u af lim) ∧
    (securityLogsGet store u af lim =
      let sorted := List.insertionSort newestFirst (store.filter (logMatches u af))
      let n : Int := lim.getD 50
      if 0 < n ∧ n ≤ 100 then sorted.take n.toNat else sorted) := by
  refine ⟨?_, ?_, rfl⟩
  · intro l hl
    have hl' : l ∈ List.insertionSort newestFirst
        (store.filter (logMatches u af)) := by
      simp only [securityLogsGet] at hl
      by_cases hc : (0 < (lim.getD 50 : Int) ∧ (lim.getD 50 : Int) ≤ 100)
      · rw [if_pos hc] at hl
        exact List.take_subset _ _ hl
      · rw [if_neg hc] at hl
        exact hl
    have h2 := List.mem_filter.mp ((List.mem_insertionSort newestFirst).mp hl')
    have h3 := h2.2
    simp only [logMatches, Bool.and_eq_true, beq_iff_eq] at h3
    exact h3.1
  · have hs := List.sorted_insertionSort newestFirst
        (store.filter (logMatches u af))
    simp only [securityLogsGet]
    by_cases hc : (0 < (lim.getD 50 : Int) ∧ (lim.getD 50 : Int) ≤ 100)
    · rw [if_pos hc]
      exact List.Pairwise.sublist (List.take_sublist _ _) hs
    · rw [if_neg hc]
      exact hs

end SecureSphere
